import Mathlib

/-
Verification of the query-agent repository (src/main.py and src/agent.py)
against its natural-language specification.

The development shallowly embeds the Python program:
  - JSON values are the inductive `Json` (numbers modelled as integers;
    the claims under study never involve fractional literals);
  - the external collaborators (OpenAI oracle, Kubernetes cluster client,
    pod-log reader) are fields of an `Env` record, since they are opaque
    capabilities chosen by the outside world;
  - the jq query library (imported by src/main.py, its code is not part of
    this repository) is modelled from the spec as a small expression
    language `JqExpr` with parser and evaluator;
  - `json.loads` / `json.dumps` are modelled by `parseJson` / `jsonEncode`;
  - the Flask handler `create_query` of src/main.py and
    `get_question_and_facts` of src/agent.py become total functions from a
    request body to a `HandlerOutcome` (a JSON response, a 400 response, or
    an uncaught exception escaping the handler).
-/

namespace QueryAgent

/-- JSON values as handled by the program (python dict/list/str/int/bool/None).
Numbers are modelled as integers; none of the verified behavior involves
fractional literals. -/
inductive Json where
  | null : Json
  | bool (b : Bool) : Json
  | num (n : Int) : Json
  | str (s : String) : Json
  | arr (items : List Json) : Json
  | obj (fields : List (String × Json)) : Json

/-- First-match lookup of a key in an object field list (python dict access). -/
def lookupField (name : String) : List (String × Json) → Option Json
  | [] => none
  | (k, v) :: rest => if k = name then some v else lookupField name rest

/-- The opening-brace character, kept as a named constant. -/
def lbrace : Char := Char.ofNat 123

/-- The closing-brace character, kept as a named constant. -/
def rbrace : Char := Char.ofNat 125

/-- Escape of a single character inside a JSON string literal, as done by
python json.dumps for the characters that occur in this development. -/
def jsonEncodeChar (c : Char) : String :=
  if c = '"' then "\\\""
  else if c = '\\' then "\\\\"
  else if c = '\n' then "\\n"
  else if c = '\t' then "\\t"
  else if c = '\r' then "\\r"
  else String.singleton c

/-- Encoding of a string as a JSON string literal (python json.dumps). -/
def jsonEncodeString (s : String) : String :=
  "\"" ++ String.join (s.toList.map jsonEncodeChar) ++ "\""

mutual

/-- Serialization of a JSON value (python json.dumps with its default
separators, as used for tool-result message content and error descriptors
in src/main.py). -/
def jsonEncode : Json → String
  | Json.null => "null"
  | Json.bool b => if b then "true" else "false"
  | Json.num n => toString n
  | Json.str s => jsonEncodeString s
  | Json.arr xs => "[" ++ jsonEncodeItems xs ++ "]"
  | Json.obj fs => "\x7b" ++ jsonEncodeFields fs ++ "\x7d"

/-- Comma-separated encoding of array items (helper of `jsonEncode`). -/
def jsonEncodeItems : List Json → String
  | [] => ""
  | [x] => jsonEncode x
  | x :: xs => jsonEncode x ++ ", " ++ jsonEncodeItems xs

/-- Comma-separated encoding of object fields (helper of `jsonEncode`). -/
def jsonEncodeFields : List (String × Json) → String
  | [] => ""
  | [(k, v)] => jsonEncodeString k ++ ": " ++ jsonEncode v
  | (k, v) :: ps => jsonEncodeString k ++ ": " ++ jsonEncode v ++ ", " ++ jsonEncodeFields ps

end

/-- Whitespace skipping for the JSON reader. -/
def jsonSkipWs : List Char → List Char
  | c :: cs => if c = ' ' || c = '\n' || c = '\t' || c = '\r' then jsonSkipWs cs else c :: cs
  | [] => []

/-- Value of a hexadecimal digit. -/
def hexVal (c : Char) : Option Nat :=
  if c.isDigit then some (c.toNat - 48)
  else if 'a' ≤ c && c ≤ 'f' then some (c.toNat - 87)
  else if 'A' ≤ c && c ≤ 'F' then some (c.toNat - 55)
  else none

/-- Reads the characters of a JSON string literal after the opening quote,
handling the escape sequences python json.loads accepts. Returns the decoded
characters and the remaining input, or `none` on a malformed literal. -/
def parseStringChars : List Char → Option (List Char × List Char)
  | [] => none
  | c :: cs =>
    if c = '"' then some ([], cs)
    else if c = '\\' then
      match cs with
      | [] => none
      | e :: cs1 =>
        if e = '"' || e = '\\' || e = '/' then
          (parseStringChars cs1).map (fun p => (e :: p.1, p.2))
        else if e = 'n' then (parseStringChars cs1).map (fun p => ('\n' :: p.1, p.2))
        else if e = 't' then (parseStringChars cs1).map (fun p => ('\t' :: p.1, p.2))
        else if e = 'r' then (parseStringChars cs1).map (fun p => ('\r' :: p.1, p.2))
        else if e = 'b' then (parseStringChars cs1).map (fun p => (Char.ofNat 8 :: p.1, p.2))
        else if e = 'f' then (parseStringChars cs1).map (fun p => (Char.ofNat 12 :: p.1, p.2))
        else if e = 'u' then
          match cs1 with
          | h1 :: h2 :: h3 :: h4 :: cs2 =>
            match hexVal h1, hexVal h2, hexVal h3, hexVal h4 with
            | some a, some b, some c2, some d =>
              (parseStringChars cs2).map
                (fun p => (Char.ofNat (a * 4096 + b * 256 + c2 * 16 + d) :: p.1, p.2))
            | _, _, _, _ => none
          | _ => none
        else none
    else (parseStringChars cs).map (fun p => (c :: p.1, p.2))

/-- Takes a maximal run of decimal digits. -/
def takeDigits : List Char → List Char × List Char
  | [] => ([], [])
  | c :: cs =>
    if c.isDigit then
      let p := takeDigits cs
      (c :: p.1, p.2)
    else ([], c :: cs)

/-- Numeric value of a digit run. -/
def digitsToNat (ds : List Char) : Nat :=
  ds.foldl (fun acc c => acc * 10 + (c.toNat - 48)) 0

/-- Fuel-indexed JSON reader modelling python json.loads. The `mode`
argument selects the production being read: 0 = value, 1 = array items just
after the opening bracket, 3 = array items where an item is required,
2 = object fields just after the opening brace, 4 = object fields where a
field is required. Array item lists are returned wrapped in `Json.arr` and
field lists in `Json.obj`. -/
def parseJsonCore : Nat → Nat → List Char → Option (Json × List Char)
  | 0, _, _ => none
  | fuel + 1, 0, cs =>
    match jsonSkipWs cs with
    | [] => none
    | c :: cs1 =>
      if c = '"' then
        (parseStringChars cs1).map (fun p => (Json.str (String.mk p.1), p.2))
      else if c = lbrace then parseJsonCore fuel 2 cs1
      else if c = '[' then parseJsonCore fuel 1 cs1
      else if c = 't' then
        match cs1 with
        | 'r' :: 'u' :: 'e' :: cs2 => some (Json.bool true, cs2)
        | _ => none
      else if c = 'f' then
        match cs1 with
        | 'a' :: 'l' :: 's' :: 'e' :: cs2 => some (Json.bool false, cs2)
        | _ => none
      else if c = 'n' then
        match cs1 with
        | 'u' :: 'l' :: 'l' :: cs2 => some (Json.null, cs2)
        | _ => none
      else if c = '-' then
        match cs1 with
        | d :: cs2 =>
          if d.isDigit then
            let p := takeDigits (d :: cs2)
            some (Json.num (-(Int.ofNat (digitsToNat p.1))), p.2)
          else none
        | [] => none
      else if c.isDigit then
        let p := takeDigits (c :: cs1)
        some (Json.num (Int.ofNat (digitsToNat p.1)), p.2)
      else none
  | fuel + 1, 1, cs =>
    match jsonSkipWs cs with
    | [] => none
    | c :: cs1 =>
      if c = ']' then some (Json.arr [], cs1)
      else parseJsonCore fuel 3 (c :: cs1)
  | fuel + 1, 3, cs =>
    match parseJsonCore fuel 0 cs with
    | some (v, rest) =>
      match jsonSkipWs rest with
      | c2 :: rest1 =>
        if c2 = ',' then
          match parseJsonCore fuel 3 rest1 with
          | some (Json.arr vs, rest2) => some (Json.arr (v :: vs), rest2)
          | _ => none
        else if c2 = ']' then some (Json.arr [v], rest1)
        else none
      | [] => none
    | none => none
  | fuel + 1, 2, cs =>
    match jsonSkipWs cs with
    | [] => none
    | c :: cs1 =>
      if c = rbrace then some (Json.obj [], cs1)
      else parseJsonCore fuel 4 (c :: cs1)
  | fuel + 1, 4, cs =>
    match jsonSkipWs cs with
    | [] => none
    | c :: cs1 =>
      if c = '"' then
        match parseStringChars cs1 with
        | some (kcs, rest) =>
          match jsonSkipWs rest with
          | c2 :: rest1 =>
            if c2 = ':' then
              match parseJsonCore fuel 0 rest1 with
              | some (v, rest2) =>
                match jsonSkipWs rest2 with
                | c3 :: rest3 =>
                  if c3 = ',' then
                    match parseJsonCore fuel 4 rest3 with
                    | some (Json.obj fs, rest4) =>
                      some (Json.obj ((String.mk kcs, v) :: fs), rest4)
                    | _ => none
                  else if c3 = rbrace then some (Json.obj [(String.mk kcs, v)], rest3)
                  else none
                | [] => none
              | none => none
            else none
          | [] => none
        | none => none
      else none
  | _ + 1, _, _ => none

/-- python json.loads: reads one JSON value and requires the remaining input
to be whitespace. -/
def parseJson (s : String) : Option Json :=
  match parseJsonCore (3 * s.length + 3) 0 s.toList with
  | some (v, rest) => if jsonSkipWs rest = [] then some v else none
  | none => none

/-- The value arriving in the pydantic `params` field of `CallKubernetesAPI`
(src/main.py lines 68-75): either a JSON-encoded string or a mapping; any
other shape falls into the trailing branch of the validator. -/
inductive ParamsValue where
  | str (s : String) : ParamsValue
  | dict (fields : List (String × Json)) : ParamsValue
  | other : ParamsValue

/-- The `validate_and_convert_params` field validator of `CallKubernetesAPI`
(src/main.py lines 85-95): a string is decoded with json.loads, a decode
failure raises ValueError (a pydantic validation failure, modelled as
`Except.error`), a mapping passes through, and any other shape raises
TypeError. -/
def validate_and_convert_params : ParamsValue → Except String Json
  | ParamsValue.str s =>
    match parseJson s with
    | some v => Except.ok v
    | none => Except.error ("Invalid JSON string for params - " ++ s)
  | ParamsValue.dict m => Except.ok (Json.obj m)
  | ParamsValue.other => Except.error "params must be a dictionary or a valid JSON string."

/-- A single path step of a jq expression: field access `.name` or array
iteration `[]`, each optionally error-suppressing (`?`). -/
inductive JqStep where
  | field (name : String) (opt : Bool) : JqStep
  | iterate (opt : Bool) : JqStep

/-- Modelled from the spec: the Query Engine expression language (§4.1).
The actual engine is the external jq library imported by src/main.py, whose
code is not part of this repository; this sum covers the constructs the
spec requires: the identity expression, field projection, array iteration,
optional access, pipes, and array collection. -/
inductive JqExpr where
  | identity : JqExpr
  | field (name : String) (opt : Bool) : JqExpr
  | iterate (opt : Bool) : JqExpr
  | pipe (l r : JqExpr) : JqExpr
  | collect (e : JqExpr) : JqExpr
deriving DecidableEq

/-- Space skipping for the jq expression reader. -/
def skipSpaces : List Char → List Char
  | ' ' :: cs => skipSpaces cs
  | cs => cs

/-- Whether a character may occur in a jq field name. -/
def isNameChar (c : Char) : Bool := c.isAlphanum || c = '_'

/-- Takes a maximal run of jq name characters. -/
def takeName : List Char → List Char × List Char
  | [] => ([], [])
  | c :: cs =>
    if isNameChar c then
      let p := takeName cs
      (c :: p.1, p.2)
    else ([], c :: cs)

/-- Consumes an optional trailing question mark. -/
def optMark : List Char → Bool × List Char
  | '?' :: cs => (true, cs)
  | cs => (false, cs)

/-- Subsequent path segments after the first: `.name`, `.name?`, `[]`, `[]?`. -/
def parseSegs : Nat → List Char → List JqStep × List Char
  | 0, cs => ([], cs)
  | fuel + 1, cs =>
    match cs with
    | '[' :: ']' :: rest =>
      let om := optMark rest
      let p := parseSegs fuel om.2
      (JqStep.iterate om.1 :: p.1, p.2)
    | '.' :: c :: rest =>
      if isNameChar c then
        let tn := takeName (c :: rest)
        let om := optMark tn.2
        let p := parseSegs fuel om.2
        (JqStep.field (String.mk tn.1) om.1 :: p.1, p.2)
      else ([], '.' :: c :: rest)
    | _ => ([], cs)

/-- A path step as an expression. -/
def stepExpr : JqStep → JqExpr
  | JqStep.field n o => JqExpr.field n o
  | JqStep.iterate o => JqExpr.iterate o

/-- A step chain as a pipe of step expressions; the empty chain is the
identity expression. -/
def stepsToExpr : List JqStep → JqExpr
  | [] => JqExpr.identity
  | [s] => stepExpr s
  | s :: rest => JqExpr.pipe (stepExpr s) (stepsToExpr rest)

/-- Modelled from the spec: reader for the jq expression subset. The `level`
argument is `true` for a pipe expression and `false` for a single term. -/
def parseJqAux : Nat → Bool → List Char → Option (JqExpr × List Char)
  | 0, _, _ => none
  | fuel + 1, true, cs =>
    match parseJqAux fuel false cs with
    | some (l, rest) =>
      match skipSpaces rest with
      | '|' :: rest1 =>
        match parseJqAux fuel true rest1 with
        | some (r, rest2) => some (JqExpr.pipe l r, rest2)
        | none => none
      | _ => some (l, rest)
    | none => none
  | fuel + 1, false, cs =>
    match skipSpaces cs with
    | '.' :: rest =>
      match rest with
      | c :: rest1 =>
        if isNameChar c then
          let tn := takeName (c :: rest1)
          let om := optMark tn.2
          let p := parseSegs fuel om.2
          some (stepsToExpr (JqStep.field (String.mk tn.1) om.1 :: p.1), p.2)
        else if c = '[' then
          match rest1 with
          | ']' :: rest2 =>
            let om := optMark rest2
            let p := parseSegs fuel om.2
            some (stepsToExpr (JqStep.iterate om.1 :: p.1), p.2)
          | _ => none
        else some (JqExpr.identity, c :: rest1)
      | [] => some (JqExpr.identity, [])
    | '[' :: rest =>
      match parseJqAux fuel true rest with
      | some (e, rest1) =>
        match skipSpaces rest1 with
        | ']' :: rest2 => some (JqExpr.collect e, rest2)
        | _ => none
      | none => none
    | _ => none

/-- Modelled from the spec: compilation of a jq expression string
(jq.compile in src/main.py line 37); a malformed expression is a
compile-time failure. -/
def parseJq (s : String) : Option JqExpr :=
  match parseJqAux (s.length + 1) true s.toList with
  | some (e, rest) => if skipSpaces rest = [] then some e else none
  | none => none

/-- Name of a JSON value shape, used in jq evaluation errors. -/
def typeName : Json → String
  | Json.null => "null"
  | Json.bool _ => "boolean"
  | Json.num _ => "number"
  | Json.str _ => "string"
  | Json.arr _ => "array"
  | Json.obj _ => "object"

/-- jq field access on one value: objects yield the field value or null,
null yields null, and other shapes are an evaluation error unless the
access is optional (in which case they yield no result). -/
def evalField (n : String) (opt : Bool) (v : Json) : Except String (List Json) :=
  match v with
  | Json.obj fs => Except.ok [(lookupField n fs).getD Json.null]
  | Json.null => Except.ok [Json.null]
  | _ =>
    if opt then Except.ok []
    else Except.error ("Cannot index " ++ typeName v ++ " with " ++ n)

/-- The values of an object, in field order. -/
def objValues : List (String × Json) → List Json
  | [] => []
  | (_, v) :: rest => v :: objValues rest

/-- jq array iteration on one value: arrays yield their elements, objects
their values, and other shapes are an evaluation error unless optional. -/
def evalIter (opt : Bool) (v : Json) : Except String (List Json) :=
  match v with
  | Json.arr xs => Except.ok xs
  | Json.obj fs => Except.ok (objValues fs)
  | _ =>
    if opt then Except.ok []
    else Except.error ("Cannot iterate over " ++ typeName v)

/-- Modelled from the spec: evaluation of a jq expression over a stream of
input values, producing the concatenated output stream or the first
evaluation error. -/
def evalJq : JqExpr → List Json → Except String (List Json)
  | JqExpr.identity, vs => Except.ok vs
  | JqExpr.field _ _, [] => Except.ok []
  | JqExpr.field n o, v :: vs =>
    match evalField n o v with
    | Except.error e => Except.error e
    | Except.ok rs =>
      match evalJq (JqExpr.field n o) vs with
      | Except.error e => Except.error e
      | Except.ok rest => Except.ok (rs ++ rest)
  | JqExpr.iterate _, [] => Except.ok []
  | JqExpr.iterate o, v :: vs =>
    match evalIter o v with
    | Except.error e => Except.error e
    | Except.ok rs =>
      match evalJq (JqExpr.iterate o) vs with
      | Except.error e => Except.error e
      | Except.ok rest => Except.ok (rs ++ rest)
  | JqExpr.pipe l r, vs =>
    match evalJq l vs with
    | Except.error e => Except.error e
    | Except.ok mid => evalJq r mid
  | JqExpr.collect _, [] => Except.ok []
  | JqExpr.collect e, v :: vs =>
    match evalJq e [v] with
    | Except.error er => Except.error er
    | Except.ok inner =>
      match evalJq (JqExpr.collect e) vs with
      | Except.error er => Except.error er
      | Except.ok rest => Except.ok (Json.arr inner :: rest)
termination_by e vs => (sizeOf e, vs.length)

/-- Modelled from the spec: the Query Engine contract
`reduce(value, expression)` (§4.1), realized in src/main.py line 37 as
`jq.compile(jq_filter).input(result).all()`: compile the expression, feed
the single input value, and collect all outputs. -/
def reduce (value : Json) (expression : String) : Except String (List Json) :=
  match parseJq expression with
  | none => Except.error ("FilterSyntaxError: " ++ expression)
  | some e => evalJq e [value]

/-- A conversation message: role, content, and for tool-result messages the
correlating tool-call id (src/main.py lines 274-277 and 345-351). -/
structure Message where
  role : String
  content : String
  tool_call_id : Option String

/-- The `ReadNamespacedPodLogParams` pydantic model (src/main.py lines
98-109); the source field `namespace` is a Lean keyword and is embedded as
`pod_namespace`. -/
structure ReadNamespacedPodLogParams where
  pod_name : String
  pod_namespace : String
  optional_params : Option (List (String × Json))

/-- The `FetchLogs` pydantic model (src/main.py lines 112-117). -/
structure FetchLogs where
  list : List ReadNamespacedPodLogParams

/-- The `FinalAnswer` pydantic model (src/main.py lines 120-125). -/
structure FinalAnswer where
  answer : String

/-- The `Error` pydantic model (src/main.py lines 128-133). -/
structure Error where
  message : String

/-- The tagged union behind `OpenAIResponse.data` (src/main.py line 141). -/
inductive OracleData where
  | final (f : FinalAnswer) : OracleData
  | logs (l : FetchLogs) : OracleData
  | err (e : Error) : OracleData

/-- The `OpenAIResponse` pydantic model (src/main.py lines 136-141). -/
structure OpenAIResponse where
  data : OracleData

/-- The `CallKubernetesAPI` pydantic model after validation (src/main.py
lines 49-95); `params` holds the value produced by
`validate_and_convert_params`. -/
structure CallKubernetesAPI where
  api_class : String
  method : String
  params : Json
  jq_filter : String

/-- The parsed arguments of one tool call in the oracle reply: either a
well-formed `CallKubernetesAPI` or something else, which the loop body
treats as a contract violation (src/main.py lines 340-355). -/
inductive ParsedArgs where
  | callK8s (args : CallKubernetesAPI) : ParsedArgs
  | unexpected (description : String) : ParsedArgs

/-- One tool call of the oracle reply (src/main.py lines 339-340). -/
structure ToolCall where
  id : String
  parsed_arguments : ParsedArgs

/-- The finish reason of the oracle reply (src/main.py lines 298, 335,
357): terminal content, tool calls, or any other value. -/
inductive FinishReason where
  | stop : FinishReason
  | tool_calls : FinishReason
  | other (reason : String) : FinishReason

/-- One oracle reply, as consumed by the loop body (src/main.py lines
283-296): its finish reason, the parsed structured output (None when
parsing produced nothing), its tool calls, and the raw assistant message
that gets appended to the conversation. -/
structure OracleResponse where
  finish_reason : FinishReason
  parsed : Option OpenAIResponse
  tool_calls : List ToolCall
  message : Message

/-- The external collaborators of the loop: the decision oracle (OpenAI),
the cluster API client including json.loads of the raw body (src/main.py
lines 31-34), and the dedicated pod-log reader (src/main.py line 316).
Each fallible collaborator returns `Except.error` where the python call
raises. -/
structure Env where
  oracle : List Message → OracleResponse
  cluster : String → String → Json → Except String Json
  readLog : ReadNamespacedPodLogParams → Except String String

/-- The `call_kubernetes_api` function (src/main.py lines 26-46): resolve
and perform the cluster call, decode the body, apply the jq filter, and
convert any raised error into a serialized error descriptor
`json.dumps(\x7b"error": str(e)\x7d)` instead of propagating it. -/
def call_kubernetes_api (env : Env) (api_class : String) (method : String)
    (params : Json) (jq_filter : String) : Json :=
  match env.cluster api_class method params with
  | Except.error e => Json.str (jsonEncode (Json.obj [("error", Json.str e)]))
  | Except.ok result =>
    match reduce result jq_filter with
    | Except.error e => Json.str (jsonEncode (Json.obj [("error", Json.str e)]))
    | Except.ok filtered => Json.arr filtered

/-- The tool-call processing loop of the `tool_calls` branch (src/main.py
lines 339-355): each well-formed call runs `call_kubernetes_api` and
appends a tool-result message with the serialized result; a call whose
parsed arguments are not a `CallKubernetesAPI` raises ValueError, which the
surrounding handler catches. -/
def processToolCalls (env : Env) : List ToolCall → List Message → Except String (List Message)
  | [], msgs => Except.ok msgs
  | c :: rest, msgs =>
    match c.parsed_arguments with
    | ParsedArgs.callK8s args =>
      let kube_result :=
        call_kubernetes_api env args.api_class args.method args.params args.jq_filter
      processToolCalls env rest
        (msgs ++ [{ role := "tool", content := jsonEncode kube_result, tool_call_id := some c.id }])
    | ParsedArgs.unexpected d =>
      Except.error ("Unexpected function call in GPT response: " ++ d)

/-- The log-fetching loop of the `FetchLogs` branch (src/main.py lines
313-321): logs are fetched strictly in request order and the first raised
error propagates, abandoning the remaining requests. -/
def fetchAllLogs (env : Env) : List ReadNamespacedPodLogParams → Except String (List String)
  | [] => Except.ok []
  | r :: rest =>
    match env.readLog r with
    | Except.error e => Except.error e
    | Except.ok s =>
      match fetchAllLogs env rest with
      | Except.error e => Except.error e
      | Except.ok ss => Except.ok (s :: ss)

/-- The outcome of the `for` loop body chain in `create_query`: a returned
answer string, a raised exception (later caught by the handler), or falling
through every iteration. -/
inductive LoopResult where
  | answered (answer : String) : LoopResult
  | exception (msg : String) : LoopResult
  | exhausted : LoopResult

/-- Message of the AttributeError raised when the structured output is
absent and `openai_response.data` is accessed on None (src/main.py line
300-302). -/
def attributeErrorMessage : String :=
  "AttributeError: NoneType object has no attribute data"

/-- One iteration of the `for` loop in `create_query` (src/main.py lines
282-358). `recur` continues with the remaining iterations; the returned
number counts the oracle `decide` calls made from this point on. -/
def runLoopStep (env : Env) (recur : List Message → LoopResult × Nat)
    (messages : List Message) : LoopResult × Nat :=
  let resp := env.oracle messages
  match resp.finish_reason with
  | FinishReason.stop =>
    match resp.parsed with
    | none => (LoopResult.exception attributeErrorMessage, 1)
    | some pr =>
      match pr.data with
      | OracleData.final f => (LoopResult.answered f.answer, 1)
      | OracleData.logs fl =>
        match fetchAllLogs env fl.list with
        | Except.error e => (LoopResult.exception e, 1)
        | Except.ok logs => (LoopResult.answered (String.intercalate "\n" logs), 1)
      | OracleData.err er => (LoopResult.answered er.message, 1)
  | FinishReason.tool_calls =>
    match processToolCalls env resp.tool_calls (messages ++ [resp.message]) with
    | Except.error e => (LoopResult.exception e, 1)
    | Except.ok messages2 =>
      let r := recur messages2
      (r.1, r.2 + 1)
  | FinishReason.other _ => (LoopResult.exception "Unexpected finish_reason in GPT response.", 1)

/-- The `for _ in range(...)` loop of `create_query` (src/main.py line 282),
indexed by the number of remaining iterations. -/
def runLoop (env : Env) : Nat → List Message → LoopResult × Nat
  | 0, _ => (LoopResult.exhausted, 0)
  | fuel + 1, messages => runLoopStep env (fun m => runLoop env fuel m) messages

/-- The configured attempt maximum (src/main.py lines 279-281). -/
def max_attempts : Nat := 10

/-- The system prompt seeded into the conversation (src/main.py
SYSTEM_PROMPT, lines 145-255). The full prompt text is inert data for the
control flow modelled here and is abridged to its opening sentence. -/
def SYSTEM_PROMPT : String :=
  "You are a smart, intelligent, self-learning and helpful Kubernetes assistant designed to interact with a Kubernetes cluster to answer user queries about its deployed applications."

/-- The conversation seeding (src/main.py lines 274-277). -/
def initialMessages (query : String) : List Message :=
  [{ role := "system", content := SYSTEM_PROMPT, tool_call_id := none },
   { role := "user", content := query, tool_call_id := none }]

/-- The fixed message returned when every loop iteration falls through
(src/main.py line 361). -/
def exhaustedMessage : String :=
  "Query could not be resolved within " ++ toString max_attempts ++ " attempts."

/-- The whole loop of one query resolution, with its decide-call count. -/
def runQuery (env : Env) (query : String) : LoopResult × Nat :=
  runLoop env (max_attempts + 1) (initialMessages query)

/-- Number of calls the loop makes to the oracle for one query. -/
def decideCalls (env : Env) (query : String) : Nat :=
  (runQuery env query).2

/-- Validation of the request body against the `QueryRequest` pydantic
model (src/main.py lines 263-264, 271): the body must be an object whose
`query` field is a string. -/
def validateQueryRequest : Json → Option String
  | Json.obj fields =>
    match lookupField "query" fields with
    | some (Json.str s) => some s
    | _ => none
  | _ => none

/-- What a Flask handler invocation produces: a 200 JSON response, a 400
JSON response, or an uncaught exception escaping the handler. -/
inductive HandlerOutcome where
  | response (body : Json) : HandlerOutcome
  | badRequest (body : Json) : HandlerOutcome
  | raises (msg : String) : HandlerOutcome

/-- Message of the UnboundLocalError raised by the `except` branch of
`create_query` when validation failed and the branch reads the never-bound
`query` variable (src/main.py lines 366-368). -/
def unboundLocalMessage : String :=
  "UnboundLocalError: cannot access local variable query where it is not associated with a value"

/-- The serialized `QueryResponse` body (src/main.py lines 266-268). -/
def queryResponse (query answer : String) : Json :=
  Json.obj [("query", Json.str query), ("answer", Json.str answer)]

/-- The `/query` handler `create_query` (src/main.py lines 261-369): on a
valid body, run the loop; a returned decision or the exhausted fallback
becomes a `QueryResponse`, an exception raised inside the `try` is caught
and answered as `"Error: " ++ e`; on an invalid body the `except` branch
itself raises UnboundLocalError, so no response is produced. -/
def create_query (env : Env) (body : Json) : HandlerOutcome :=
  match validateQueryRequest body with
  | none => HandlerOutcome.raises unboundLocalMessage
  | some query =>
    match (runQuery env query).1 with
    | LoopResult.answered a => HandlerOutcome.response (queryResponse query a)
    | LoopResult.exhausted => HandlerOutcome.response (queryResponse query exhaustedMessage)
    | LoopResult.exception e => HandlerOutcome.response (queryResponse query ("Error: " ++ e))

/-- The `/query-agent` handler `get_question_and_facts` of src/agent.py
(lines 18-41): reads `question` with dict.get, always answers the constant
string "14", returns a 400 on a pydantic ValidationError (question absent
or not a string), and raises AttributeError on a non-object body. -/
def get_question_and_facts (body : Json) : HandlerOutcome :=
  match body with
  | Json.obj fields =>
    match lookupField "question" fields with
    | some (Json.str question) =>
      HandlerOutcome.response
        (Json.obj [("question", Json.str question), ("answer", Json.str "14")])
    | _ => HandlerOutcome.badRequest (Json.obj [("error", Json.str "validation error")])
  | _ => HandlerOutcome.raises "AttributeError"

/-- The exception message of the first contract-violating tool call in a
reply, if any (src/main.py lines 352-355: the loop raises at the first tool
call whose parsed arguments are not a `CallKubernetesAPI`). -/
def firstUnexpectedMsg : List ToolCall → Option String
  | [] => none
  | c :: rest =>
    match c.parsed_arguments with
    | ParsedArgs.callK8s _ => firstUnexpectedMsg rest
    | ParsedArgs.unexpected d => some ("Unexpected function call in GPT response: " ++ d)

/-- Classifies an oracle reply that is neither well-formed tool invocations
nor a well-formed terminal decision (the spec's `MalformedOracleReply`),
returning the message of the exception the loop body raises on it:
a `stop` reply with no parsed structured output, a tool call whose parsed
arguments are not a `CallKubernetesAPI`, or any other finish reason. -/
def malformedMsg (r : OracleResponse) : Option String :=
  match r.finish_reason with
  | FinishReason.stop =>
    match r.parsed with
    | none => some attributeErrorMessage
    | some _ => none
  | FinishReason.tool_calls => firstUnexpectedMsg r.tool_calls
  | FinishReason.other _ => some "Unexpected finish_reason in GPT response."

/-- A tool call whose parsed arguments are a well-formed `CallKubernetesAPI`. -/
def mkToolCall (id : String) (args : CallKubernetesAPI) : ToolCall :=
  { id := id, parsed_arguments := ParsedArgs.callK8s args }

/-- The tool-result message the loop appends for one well-formed tool call
(src/main.py lines 345-351). -/
def toolResultMessage (env : Env) (id : String) (args : CallKubernetesAPI) : Message :=
  { role := "tool",
    content := jsonEncode (call_kubernetes_api env args.api_class args.method args.params args.jq_filter),
    tool_call_id := some id }

/-- A stand-in assistant message carried by the concrete oracle behaviors
below. -/
def assistantStub : Message := { role := "assistant", content := "", tool_call_id := none }

/-- A reply with finish reason `tool_calls` and no tool calls. -/
def toolCallsEmptyResponse : OracleResponse :=
  { finish_reason := FinishReason.tool_calls, parsed := none, tool_calls := [],
    message := assistantStub }

/-- A terminal reply carrying the given decision. -/
def stopResponse (d : OracleData) : OracleResponse :=
  { finish_reason := FinishReason.stop, parsed := some { data := d }, tool_calls := [],
    message := assistantStub }

/-- Concrete behavior: the oracle answers every decide call with a
tool-call turn, so no terminal decision is ever reached. -/
def envAllTools : Env :=
  { oracle := fun _ => toolCallsEmptyResponse,
    cluster := fun _ _ _ => Except.error "unreachable cluster",
    readLog := fun _ => Except.error "unreachable cluster" }

/-- Concrete behavior: the oracle replies with finish reason "length" on the
first decide call. -/
def envLengthStop : Env :=
  { oracle := fun _ =>
      { finish_reason := FinishReason.other "length", parsed := none, tool_calls := [],
        message := assistantStub },
    cluster := fun _ _ _ => Except.error "unreachable cluster",
    readLog := fun _ => Except.error "unreachable cluster" }

/-- A log request for pod-a. -/
def logReqA : ReadNamespacedPodLogParams :=
  { pod_name := "pod-a", pod_namespace := "default", optional_params := none }

/-- A log request for pod-b. -/
def logReqB : ReadNamespacedPodLogParams :=
  { pod_name := "pod-b", pod_namespace := "default", optional_params := none }

/-- Concrete behavior: the oracle immediately decides a two-request log
plan; fetching pod-a fails while pod-b would succeed. -/
def envLogsFail : Env :=
  { oracle := fun _ => stopResponse (OracleData.logs { list := [logReqA, logReqB] }),
    cluster := fun _ _ _ => Except.error "unreachable cluster",
    readLog := fun r =>
      if r.pod_name = "pod-b" then Except.ok "log line b"
      else Except.error "pod pod-a not found" }

/-- Concrete behavior: the oracle immediately decides a two-request log
plan and both fetches succeed. -/
def envLogsOk : Env :=
  { oracle := fun _ => stopResponse (OracleData.logs { list := [logReqA, logReqB] }),
    cluster := fun _ _ _ => Except.error "unreachable cluster",
    readLog := fun r => Except.ok ("log of " ++ r.pod_name) }

/-- A well-formed node-listing tool invocation with the identity filter. -/
def nodeListCall : CallKubernetesAPI :=
  { api_class := "CoreV1Api", method := "list_node", params := Json.obj [], jq_filter := "." }

/-- A tool-call reply proposing exactly the node-listing invocation. -/
def toolOnceResponse : OracleResponse :=
  { finish_reason := FinishReason.tool_calls, parsed := none,
    tool_calls := [mkToolCall "call_1" nodeListCall],
    message := assistantStub }

/-- Concrete behavior: the oracle requests the node listing on the seeded
conversation and answers "2" once a tool result is present; the cluster
returns a two-node list. -/
def envToolOnce : Env :=
  { oracle := fun msgs =>
      if msgs.length ≤ 2 then toolOnceResponse
      else stopResponse (OracleData.final { answer := "2" }),
    cluster := fun _ _ _ =>
      Except.ok (Json.obj [("items", Json.arr
        [Json.obj [("metadata", Json.obj [("name", Json.str "n1")])],
         Json.obj [("metadata", Json.obj [("name", Json.str "n2")])]])]),
    readLog := fun _ => Except.error "unreachable cluster" }

/-- The seeded conversation of the node-counting query. -/
def c8ms : List Message := initialMessages "how many nodes are there"

/-- The conversation after the loop has processed the node-listing tool
call: the assistant proposal plus its correlated tool-result message. -/
def c8msOut : List Message :=
  (c8ms ++ [assistantStub]) ++
    [toolResultMessage envToolOnce "call_1" nodeListCall]

/-- Concrete behavior: cluster calls succeed with a null body, so only the
filter application can fail. -/
def envJqBad : Env :=
  { oracle := fun _ => toolCallsEmptyResponse,
    cluster := fun _ _ _ => Except.ok Json.null,
    readLog := fun _ => Except.error "unreachable cluster" }

/-- A tool invocation naming a syntactically malformed filter. -/
def badFilterCall : CallKubernetesAPI :=
  { api_class := "CoreV1Api", method := "list_node", params := Json.obj [], jq_filter := "]" }

/-- A well-formed params JSON string. -/
def c5goodParams : String := "\x7b\"name\": \"my-pod\", \"namespace\": \"my-namespace\"\x7d"

/-- The mapping the well-formed params string denotes. -/
def c5goodFields : List (String × Json) :=
  [("name", Json.str "my-pod"), ("namespace", Json.str "my-namespace")]

/-- A params string that is not valid JSON. -/
def c5badParams : String := "\x7bnot json"

/-- Concrete behavior: the oracle immediately answers "2". -/
def envFinal2 : Env :=
  { oracle := fun _ => stopResponse (OracleData.final { answer := "2" }),
    cluster := fun _ _ _ => Except.error "unreachable cluster",
    readLog := fun _ => Except.error "unreachable cluster" }

/-- Unfolding of one loop iteration. -/
theorem runLoop_succ (env : Env) (fuel : Nat) (ms : List Message) :
    runLoop env (fuel + 1) ms = runLoopStep env (fun m => runLoop env fuel m) ms := rfl

/-- Unfolding of a whole query resolution into its first iteration. -/
theorem runQuery_eq (env : Env) (q : String) :
    runQuery env q = runLoopStep env (fun m => runLoop env max_attempts m) (initialMessages q) := rfl

/-- One loop iteration makes at most one more decide call than the
remaining iterations. -/
theorem runLoopStep_count_le (env : Env) (recur : List Message → LoopResult × Nat)
    (ms : List Message) (n : Nat) (h : ∀ m, (recur m).2 ≤ n) :
    (runLoopStep env recur ms).2 ≤ n + 1 := by
  simp only [runLoopStep]
  generalize env.oracle ms = resp
  rcases resp with ⟨fr, p, tc, msg⟩
  cases fr with
  | stop =>
    cases p with
    | none => exact Nat.succ_le_succ (Nat.zero_le n)
    | some pr =>
      rcases pr with ⟨d⟩
      rcases d with f | fl | er
      · exact Nat.succ_le_succ (Nat.zero_le n)
      · rcases hfl : fetchAllLogs env fl.list with e | logs
        all_goals simp only [hfl]
        all_goals exact Nat.succ_le_succ (Nat.zero_le n)
      · exact Nat.succ_le_succ (Nat.zero_le n)
  | tool_calls =>
    rcases hpt : processToolCalls env tc (ms ++ [msg]) with e | ms2
    all_goals simp only [hpt]
    · exact Nat.succ_le_succ (Nat.zero_le n)
    · exact Nat.add_le_add_right (h ms2) 1
  | other r => exact Nat.succ_le_succ (Nat.zero_le n)

/-- The loop makes at most as many decide calls as it has iterations. -/
theorem runLoop_count_le (env : Env) :
    ∀ (fuel : Nat) (ms : List Message), (runLoop env fuel ms).2 ≤ fuel := by
  intro fuel
  induction fuel with
  | zero => intro ms; exact Nat.le_refl 0
  | succ n ih =>
    intro ms
    exact runLoopStep_count_le env (fun m => runLoop env n m) ms n (fun m => ih m)

/-- Successful tool-call processing never shortens the conversation. -/
theorem processToolCalls_le_length (env : Env) :
    ∀ (calls : List ToolCall) (msgs out : List Message),
      processToolCalls env calls msgs = Except.ok out → msgs.length ≤ out.length := by
  intro calls
  induction calls with
  | nil =>
    intro msgs out h
    simp only [processToolCalls] at h
    cases h
    exact Nat.le_refl _
  | cons c rest ih =>
    intro msgs out h
    simp only [processToolCalls] at h
    cases hc : c.parsed_arguments with
    | callK8s args =>
      rw [hc] at h
      have h2 := ih _ _ h
      simp only [List.length_append, List.length_cons, List.length_nil] at h2
      omega
    | unexpected d =>
      rw [hc] at h
      exact absurd h (by simp)

/-- The parsed arguments of a well-formed tool call. -/
theorem mkToolCall_parsed (id : String) (args : CallKubernetesAPI) :
    (mkToolCall id args).parsed_arguments = ParsedArgs.callK8s args := rfl

/-- The id of a well-formed tool call. -/
theorem mkToolCall_id (id : String) (args : CallKubernetesAPI) :
    (mkToolCall id args).id = id := rfl

/-- Processing a list of well-formed tool calls succeeds and appends exactly
one correlated tool-result message per call, in call order. -/
theorem processToolCalls_map_ok (env : Env) (ps : List (String × CallKubernetesAPI)) :
    ∀ msgs, processToolCalls env (ps.map fun p => mkToolCall p.1 p.2) msgs =
      Except.ok (msgs ++ ps.map fun p => toolResultMessage env p.1 p.2) := by
  induction ps with
  | nil => intro msgs; simp [processToolCalls]
  | cons p rest ih =>
    intro msgs
    simp only [List.map_cons, processToolCalls, mkToolCall_parsed, mkToolCall_id]
    rw [ih]
    simp [toolResultMessage]

/-- Tool-call processing raises the exception of the first contract-violating
call. -/
theorem processToolCalls_error_of_firstUnexpected (env : Env) :
    ∀ (calls : List ToolCall) (e : String), firstUnexpectedMsg calls = some e →
      ∀ msgs, processToolCalls env calls msgs = Except.error e := by
  intro calls
  induction calls with
  | nil => intro e h; exact absurd h (by simp [firstUnexpectedMsg])
  | cons c rest ih =>
    intro e h msgs
    simp only [firstUnexpectedMsg] at h
    simp only [processToolCalls]
    cases hc : c.parsed_arguments with
    | callK8s args =>
      rw [hc] at h
      exact ih e h _
    | unexpected d =>
      rw [hc] at h
      cases h
      rfl

/-- A successful log fetch yields exactly one log per request. -/
theorem fetchAllLogs_ok_length (env : Env) :
    ∀ (l : List ReadNamespacedPodLogParams) (logs : List String),
      fetchAllLogs env l = Except.ok logs → logs.length = l.length := by
  intro l
  induction l with
  | nil =>
    intro logs h
    simp only [fetchAllLogs] at h
    cases h
    rfl
  | cons r rest ih =>
    intro logs h
    simp only [fetchAllLogs] at h
    cases hr : env.readLog r with
    | error e => rw [hr] at h; exact absurd h (by simp)
    | ok s =>
      rw [hr] at h
      cases hrest : fetchAllLogs env rest with
      | error e => rw [hrest] at h; exact absurd h (by simp)
      | ok ss =>
        rw [hrest] at h
        cases h
        simp [ih ss hrest]

/-- When the first oracle turn is a final answer, the query resolution
returns it after exactly one decide call. -/
theorem runQuery_stop_final (env : Env) (q : String) (f : FinalAnswer)
    (hfr : (env.oracle (initialMessages q)).finish_reason = FinishReason.stop)
    (hp : (env.oracle (initialMessages q)).parsed = some { data := OracleData.final f }) :
    runQuery env q = (LoopResult.answered f.answer, 1) := by
  rw [runQuery_eq]
  simp only [runLoopStep, hfr, hp]

/-- When the first oracle turn is a log-fetch plan, the query resolution is
decided by the log fetches after exactly one decide call. -/
theorem runQuery_stop_logs (env : Env) (q : String) (fl : FetchLogs)
    (hfr : (env.oracle (initialMessages q)).finish_reason = FinishReason.stop)
    (hp : (env.oracle (initialMessages q)).parsed = some { data := OracleData.logs fl }) :
    runQuery env q =
      (match fetchAllLogs env fl.list with
       | Except.error e => (LoopResult.exception e, 1)
       | Except.ok logs => (LoopResult.answered (String.intercalate "\n" logs), 1)) := by
  rw [runQuery_eq]
  simp only [runLoopStep, hfr, hp]

/-- When the first oracle turn is an error decision, the query resolution
returns its message after exactly one decide call. -/
theorem runQuery_stop_err (env : Env) (q : String) (er : Error)
    (hfr : (env.oracle (initialMessages q)).finish_reason = FinishReason.stop)
    (hp : (env.oracle (initialMessages q)).parsed = some { data := OracleData.err er }) :
    runQuery env q = (LoopResult.answered er.message, 1) := by
  rw [runQuery_eq]
  simp only [runLoopStep, hfr, hp]

/-- When the first oracle turn is malformed, the loop body raises on it
immediately, after exactly one decide call. -/
theorem runQuery_malformed (env : Env) (q : String) (e : String)
    (hm : malformedMsg (env.oracle (initialMessages q)) = some e) :
    runQuery env q = (LoopResult.exception e, 1) := by
  rw [runQuery_eq]
  simp only [runLoopStep]
  simp only [malformedMsg] at hm
  rcases hfr : (env.oracle (initialMessages q)).finish_reason with _ | _ | r
  all_goals rw [hfr] at hm
  · rcases hp : (env.oracle (initialMessages q)).parsed with _ | pr
    all_goals rw [hp] at hm
    · cases hm
      rfl
    · exact absurd hm (by simp)
  · have hpt := processToolCalls_error_of_firstUnexpected env _ e hm
      ((initialMessages q) ++ [(env.oracle (initialMessages q)).message])
    rw [hpt]
  · cases hm
    rfl

/-- Claim C1: contrary to the claim that with the configured maximum of 10
attempts the 11th call to decide never happens, the loop `for _ in
range(max_attempts + 1)` makes the 11th decide call: under an oracle that
never reaches a terminal decision, exactly `max_attempts + 1 = 11` decide
calls are issued, after which the handler still reports failure "within 10
attempts". -/
theorem c1_eleventh_decide_call_happens :
    max_attempts = 10 ∧
    decideCalls envAllTools "how many nodes are there" = max_attempts + 1 ∧
    create_query envAllTools (Json.obj [("query", Json.str "how many nodes are there")]) =
      HandlerOutcome.response (queryResponse "how many nodes are there" exhaustedMessage) ∧
    exhaustedMessage = "Query could not be resolved within 10 attempts." :=
  ⟨rfl, rfl, rfl, rfl⟩

/-- Claim C5: a `params` JSON string denoting a mapping validates to
exactly the mapping the direct dict form validates to, so invocation
behaves identically; a `params` string that is not valid JSON is rejected
with a ValueError-backed validation failure instead of crashing. -/
theorem c5_params_normalization (s : String) :
    (∀ m, parseJson s = some (Json.obj m) →
       validate_and_convert_params (ParamsValue.str s) = Except.ok (Json.obj m) ∧
       validate_and_convert_params (ParamsValue.str s) =
         validate_and_convert_params (ParamsValue.dict m)) ∧
    (parseJson s = none →
       validate_and_convert_params (ParamsValue.str s) =
         Except.error ("Invalid JSON string for params - " ++ s)) := by
  constructor
  · intro m hm
    constructor
    · simp [validate_and_convert_params, hm]
    · simp [validate_and_convert_params, hm]
  · intro h
    simp [validate_and_convert_params, h]

/-- Witness for C5 at a concrete well-formed params string and a concrete
invalid one. -/
theorem c5_witness :
    parseJson c5goodParams = some (Json.obj c5goodFields) ∧
    validate_and_convert_params (ParamsValue.str c5goodParams) =
      Except.ok (Json.obj c5goodFields) ∧
    validate_and_convert_params (ParamsValue.str c5goodParams) =
      validate_and_convert_params (ParamsValue.dict c5goodFields) ∧
    parseJson c5badParams = none ∧
    validate_and_convert_params (ParamsValue.str c5badParams) =
      Except.error ("Invalid JSON string for params - " ++ c5badParams) := by
  refine ⟨rfl, ?_, ?_, rfl, ?_⟩
  · exact ((c5_params_normalization c5goodParams).1 c5goodFields rfl).1
  · exact ((c5_params_normalization c5goodParams).1 c5goodFields rfl).2
  · exact (c5_params_normalization c5badParams).2 rfl

/-- Claim C6: reduce with the identity expression returns any well-formed
JSON value unchanged, as the single element of the output sequence. -/
theorem c6_reduce_identity (v : Json) : reduce v "." = Except.ok [v] := by
  have hp : parseJq "." = some JqExpr.identity := by decide
  simp only [reduce, hp, evalJq]

/-- Claim C7: for every query and every oracle and cluster behavior, the
orchestration loop issues at most `max_attempts + 1 = 11` decide calls
before termination is forced. -/
theorem c7_oracle_call_bound (env : Env) (query : String) :
    decideCalls env query ≤ max_attempts + 1 :=
  runLoop_count_le env (max_attempts + 1) (initialMessages query)

/-- Counterexample to C2 as stated: a terminal log-fetch plan with two
requests whose first fetch fails does not yield two segments with an inline
error string; the exception aborts the remaining fetch and the whole answer
becomes the handler's catch-all error string. -/
theorem c2_counterexample :
    create_query envLogsFail (Json.obj [("query", Json.str "show me the logs")]) =
      HandlerOutcome.response
        (queryResponse "show me the logs" ("Error: " ++ "pod pod-a not found")) ∧
    fetchAllLogs envLogsFail [logReqA, logReqB] = Except.error "pod pod-a not found" :=
  ⟨rfl, rfl⟩

/-- Claim C2 (amended): for a terminal log-fetch plan, when every fetch
succeeds the answer has exactly one segment per request, concatenated in
request order with newlines; but when any fetch fails, the raised error
aborts the remaining fetches and the handler returns a single catch-all
error answer instead of N segments. -/
theorem c2_log_fetch_amended (env : Env) (body : Json) (q : String) (fl : FetchLogs)
    (hv : validateQueryRequest body = some q)
    (hfr : (env.oracle (initialMessages q)).finish_reason = FinishReason.stop)
    (hp : (env.oracle (initialMessages q)).parsed = some { data := OracleData.logs fl }) :
    (∀ logs, fetchAllLogs env fl.list = Except.ok logs →
       logs.length = fl.list.length ∧
       create_query env body =
         HandlerOutcome.response (queryResponse q (String.intercalate "\n" logs))) ∧
    (∀ e, fetchAllLogs env fl.list = Except.error e →
       create_query env body =
         HandlerOutcome.response (queryResponse q ("Error: " ++ e))) := by
  have hrq := runQuery_stop_logs env q fl hfr hp
  constructor
  · intro logs hlogs
    refine ⟨fetchAllLogs_ok_length env fl.list logs hlogs, ?_⟩
    rw [hlogs] at hrq
    simp only [create_query, hv, hrq]
  · intro e he
    rw [he] at hrq
    simp only [create_query, hv, hrq]

/-- Witness for the amended C2: a two-request plan whose fetches both
succeed yields exactly the two segments in request order. -/
theorem c2_witness :
    validateQueryRequest (Json.obj [("query", Json.str "show me the logs")]) =
      some "show me the logs" ∧
    fetchAllLogs envLogsOk [logReqA, logReqB] =
      Except.ok ["log of pod-a", "log of pod-b"] ∧
    (["log of pod-a", "log of pod-b"] : List String).length = 2 ∧
    create_query envLogsOk (Json.obj [("query", Json.str "show me the logs")]) =
      HandlerOutcome.response (queryResponse "show me the logs"
        (String.intercalate "\n" ["log of pod-a", "log of pod-b"])) := by
  refine ⟨rfl, rfl, ?_, ?_⟩
  · exact ((c2_log_fetch_amended envLogsOk (Json.obj [("query", Json.str "show me the logs")])
      "show me the logs" { list := [logReqA, logReqB] } rfl rfl rfl).1
      ["log of pod-a", "log of pod-b"] rfl).1
  · exact ((c2_log_fetch_amended envLogsOk (Json.obj [("query", Json.str "show me the logs")])
      "show me the logs" { list := [logReqA, logReqB] } rfl rfl rfl).1
      ["log of pod-a", "log of pod-b"] rfl).2

/-- Counterexample to C3 as stated: an oracle reply that is neither a
well-formed tool invocation nor a well-formed terminal decision (finish
reason "length") terminates the query immediately with a catch-all error
answer after a single decide call; the conversation does not continue to a
next cycle. -/
theorem c3_counterexample :
    create_query envLengthStop (Json.obj [("query", Json.str "list pods")]) =
      HandlerOutcome.response (queryResponse "list pods"
        "Error: Unexpected finish_reason in GPT response.") ∧
    decideCalls envLengthStop "list pods" = 1 :=
  ⟨rfl, rfl⟩

/-- Claim C3 (amended): a malformed oracle reply raises an exception that
the handler's catch-all converts into an immediate error response, ending
the query after that single decide call instead of counting the failure and
continuing the conversation. -/
theorem c3_malformed_reply_amended (env : Env) (body : Json) (q e : String)
    (hv : validateQueryRequest body = some q)
    (hm : malformedMsg (env.oracle (initialMessages q)) = some e) :
    create_query env body = HandlerOutcome.response (queryResponse q ("Error: " ++ e)) ∧
    decideCalls env q = 1 := by
  have hrq := runQuery_malformed env q e hm
  constructor
  · simp only [create_query, hv, hrq]
  · simp only [decideCalls, hrq]

/-- Witness for the amended C3 at a concrete malformed reply. -/
theorem c3_witness :
    validateQueryRequest (Json.obj [("query", Json.str "list services")]) =
      some "list services" ∧
    malformedMsg (envLengthStop.oracle (initialMessages "list services")) =
      some "Unexpected finish_reason in GPT response." ∧
    create_query envLengthStop (Json.obj [("query", Json.str "list services")]) =
      HandlerOutcome.response (queryResponse "list services"
        ("Error: " ++ "Unexpected finish_reason in GPT response.")) ∧
    decideCalls envLengthStop "list services" = 1 := by
  refine ⟨rfl, rfl, ?_, ?_⟩
  · exact (c3_malformed_reply_amended envLengthStop
      (Json.obj [("query", Json.str "list services")]) "list services"
      "Unexpected finish_reason in GPT response." rfl rfl).1
  · exact (c3_malformed_reply_amended envLengthStop
      (Json.obj [("query", Json.str "list services")]) "list services"
      "Unexpected finish_reason in GPT response." rfl rfl).2

/-- Claim C4: when the cluster call or the filter application fails, the
invoker returns the serialized error descriptor instead of propagating the
error, and processing any list of well-formed tool calls always succeeds,
appending one correlated tool-result message per call — so a failed cluster
call never aborts the orchestration loop. -/
theorem c4_invoker_error_containment (env : Env) (api_class method : String)
    (params : Json) (jq_filter : String) (e : String)
    (ps : List (String × CallKubernetesAPI)) (msgs : List Message)
    (h : env.cluster api_class method params = Except.error e ∨
         ∃ raw, env.cluster api_class method params = Except.ok raw ∧
           reduce raw jq_filter = Except.error e) :
    call_kubernetes_api env api_class method params jq_filter =
      Json.str (jsonEncode (Json.obj [("error", Json.str e)])) ∧
    processToolCalls env (ps.map fun p => mkToolCall p.1 p.2) msgs =
      Except.ok (msgs ++ ps.map fun p => toolResultMessage env p.1 p.2) := by
  constructor
  · rcases h with h | ⟨raw, h1, h2⟩
    · simp [call_kubernetes_api, h]
    · simp [call_kubernetes_api, h1, h2]
  · exact processToolCalls_map_ok env ps msgs

/-- Witness for C4 at a concrete invocation whose filter is malformed. -/
theorem c4_witness :
    envJqBad.cluster "CoreV1Api" "list_node" (Json.obj []) = Except.ok Json.null ∧
    reduce Json.null "]" = Except.error "FilterSyntaxError: ]" ∧
    call_kubernetes_api envJqBad "CoreV1Api" "list_node" (Json.obj []) "]" =
      Json.str (jsonEncode (Json.obj [("error", Json.str "FilterSyntaxError: ]")])) ∧
    processToolCalls envJqBad [mkToolCall "call_1" badFilterCall] (initialMessages "q") =
      Except.ok (initialMessages "q" ++ [toolResultMessage envJqBad "call_1" badFilterCall]) := by
  refine ⟨rfl, rfl, ?_, ?_⟩
  · exact (c4_invoker_error_containment envJqBad "CoreV1Api" "list_node" (Json.obj []) "]"
      "FilterSyntaxError: ]" [("call_1", badFilterCall)] (initialMessages "q")
      (Or.inr ⟨Json.null, rfl, rfl⟩)).1
  · exact (c4_invoker_error_containment envJqBad "CoreV1Api" "list_node" (Json.obj []) "]"
      "FilterSyntaxError: ]" [("call_1", badFilterCall)] (initialMessages "q")
      (Or.inr ⟨Json.null, rfl, rfl⟩)).2

/-- Claim C8: a loop cycle whose oracle turn is a tool invocation that does
not terminate the query strictly grows the conversation (by the assistant
proposal plus one tool-result message per call), and the next decide call
is made on that grown conversation. -/
theorem c8_conversation_growth (env : Env) (fuel : Nat) (ms ms2 : List Message)
    (hfr : (env.oracle ms).finish_reason = FinishReason.tool_calls)
    (hok : processToolCalls env (env.oracle ms).tool_calls
      (ms ++ [(env.oracle ms).message]) = Except.ok ms2) :
    ms.length < ms2.length ∧
    runLoop env (fuel + 1) ms =
      ((runLoop env fuel ms2).1, (runLoop env fuel ms2).2 + 1) := by
  constructor
  · have h2 := processToolCalls_le_length env _ _ _ hok
    simp only [List.length_append, List.length_cons, List.length_nil] at h2
    omega
  · rw [runLoop_succ]
    simp only [runLoopStep, hfr, hok]

/-- Witness for C8: the node-counting cycle grows the seeded two-message
conversation to four messages before the second decide call. -/
theorem c8_witness :
    (envToolOnce.oracle c8ms).finish_reason = FinishReason.tool_calls ∧
    processToolCalls envToolOnce (envToolOnce.oracle c8ms).tool_calls
      (c8ms ++ [(envToolOnce.oracle c8ms).message]) = Except.ok c8msOut ∧
    c8ms.length < c8msOut.length ∧
    runLoop envToolOnce (max_attempts + 1) c8ms =
      ((runLoop envToolOnce max_attempts c8msOut).1,
       (runLoop envToolOnce max_attempts c8msOut).2 + 1) := by
  refine ⟨rfl, rfl, ?_, ?_⟩
  · exact (c8_conversation_growth envToolOnce max_attempts c8ms c8msOut rfl rfl).1
  · exact (c8_conversation_growth envToolOnce max_attempts c8ms c8msOut rfl rfl).2

/-- Counterexample to C9 as stated: the loop-bearing handler of src/main.py
does not take `\x7b question: text \x7d` — such a body fails validation and the
handler raises instead of responding — while the src/agent.py variant that
does take `question` always answers the constant "14", not a rendered
terminal decision. -/
theorem c9_counterexample :
    create_query envAllTools (Json.obj [("question", Json.str "how many pods are there")]) =
      HandlerOutcome.raises unboundLocalMessage ∧
    get_question_and_facts (Json.obj [("question", Json.str "how many pods are there")]) =
      HandlerOutcome.response (Json.obj [("question", Json.str "how many pods are there"),
        ("answer", Json.str "14")]) :=
  ⟨rfl, rfl⟩

/-- Claim C9 (amended): the loop-bearing operation takes
`\x7b query: text \x7d` and returns `\x7b query: text, answer: text \x7d`,
where the answer renders the terminal decision: the final-answer text when
the first turn is a final answer, and the error message when it is an error
decision. -/
theorem c9_request_response_amended (env : Env) (body : Json) (q : String)
    (hv : validateQueryRequest body = some q) :
    (∃ a, create_query env body = HandlerOutcome.response (queryResponse q a)) ∧
    (∀ f : FinalAnswer,
       (env.oracle (initialMessages q)).finish_reason = FinishReason.stop →
       (env.oracle (initialMessages q)).parsed = some { data := OracleData.final f } →
       create_query env body = HandlerOutcome.response (queryResponse q f.answer)) ∧
    (∀ er : Error,
       (env.oracle (initialMessages q)).finish_reason = FinishReason.stop →
       (env.oracle (initialMessages q)).parsed = some { data := OracleData.err er } →
       create_query env body = HandlerOutcome.response (queryResponse q er.message)) := by
  refine ⟨?_, ?_, ?_⟩
  · simp only [create_query, hv]
    cases h : (runQuery env q).1 with
    | answered a => exact ⟨a, rfl⟩
    | exception e => exact ⟨"Error: " ++ e, rfl⟩
    | exhausted => exact ⟨exhaustedMessage, rfl⟩
  · intro f hfr hp
    have hrq := runQuery_stop_final env q f hfr hp
    simp only [create_query, hv, hrq]
  · intro er hfr hp
    have hrq := runQuery_stop_err env q er hfr hp
    simp only [create_query, hv, hrq]

/-- Witness for the amended C9 at a concrete query whose first oracle turn
is the final answer "2". -/
theorem c9_witness :
    validateQueryRequest (Json.obj [("query", Json.str "how many nodes are there")]) =
      some "how many nodes are there" ∧
    (∃ a, create_query envFinal2 (Json.obj [("query", Json.str "how many nodes are there")]) =
       HandlerOutcome.response (queryResponse "how many nodes are there" a)) ∧
    create_query envFinal2 (Json.obj [("query", Json.str "how many nodes are there")]) =
      HandlerOutcome.response (queryResponse "how many nodes are there" "2") := by
  refine ⟨rfl, ?_, ?_⟩
  · exact (c9_request_response_amended envFinal2
      (Json.obj [("query", Json.str "how many nodes are there")])
      "how many nodes are there" rfl).1
  · exact (c9_request_response_amended envFinal2
      (Json.obj [("query", Json.str "how many nodes are there")])
      "how many nodes are there" rfl).2.1 { answer := "2" } rfl rfl

/-- Claim C10: the /query handler responds with a structured body exactly
when the request body validates to a string `query` field; every exception
raised after validation is answered as "Error: " followed by the message,
and a body failing validation makes the except branch itself raise (it
reads the unbound `query` variable), producing no response. -/
theorem c10_handler_response_iff_validation (env : Env) (body : Json) :
    ((∃ j, create_query env body = HandlerOutcome.response j) ↔
       ∃ q, validateQueryRequest body = some q) ∧
    (∀ q, validateQueryRequest body = some q →
       ∀ e, (runQuery env q).1 = LoopResult.exception e →
         create_query env body =
           HandlerOutcome.response (queryResponse q ("Error: " ++ e))) ∧
    (validateQueryRequest body = none →
       create_query env body = HandlerOutcome.raises unboundLocalMessage) := by
  refine ⟨⟨?_, ?_⟩, ?_, ?_⟩
  · rintro ⟨j, hj⟩
    cases hv : validateQueryRequest body with
    | none =>
      simp only [create_query, hv] at hj
      exact absurd hj (by simp)
    | some q => exact ⟨q, rfl⟩
  · rintro ⟨q, hq⟩
    simp only [create_query, hq]
    cases h : (runQuery env q).1 with
    | answered a => exact ⟨queryResponse q a, rfl⟩
    | exception e => exact ⟨queryResponse q ("Error: " ++ e), rfl⟩
    | exhausted => exact ⟨queryResponse q exhaustedMessage, rfl⟩
  · intro q hq e he
    simp only [create_query, hq, he]
  · intro hv
    simp only [create_query, hv]

/-- Witness for C10 at a concrete valid body whose loop raises, and a
concrete invalid body. -/
theorem c10_witness :
    validateQueryRequest (Json.obj [("query", Json.str "count nodes")]) = some "count nodes" ∧
    (runQuery envLengthStop "count nodes").1 =
      LoopResult.exception "Unexpected finish_reason in GPT response." ∧
    create_query envLengthStop (Json.obj [("query", Json.str "count nodes")]) =
      HandlerOutcome.response (queryResponse "count nodes"
        ("Error: " ++ "Unexpected finish_reason in GPT response.")) ∧
    validateQueryRequest (Json.arr []) = none ∧
    create_query envLengthStop (Json.arr []) = HandlerOutcome.raises unboundLocalMessage := by
  refine ⟨rfl, rfl, ?_, rfl, ?_⟩
  · exact (c10_handler_response_iff_validation envLengthStop
      (Json.obj [("query", Json.str "count nodes")])).2.1 "count nodes" rfl
      "Unexpected finish_reason in GPT response." rfl
  · exact (c10_handler_response_iff_validation envLengthStop (Json.arr [])).2.2 rfl

end QueryAgent
